import Mathlib

/-!
# Verification of the DOMO monitor dashboard (src/app.py)

Shallow embedding of the geospatial decision logic of the dashboard:
rasters over a finite pixel grid, the Earth-Engine style image combinators
the code invokes (band arithmetic, masking, connected components), the
imagery selection, the area/series aggregation, and the Streamlit session
state machine.  External services (the remote reduction, the boundary
fetch, geometry union/simplification, download-URL generation) are
modelled as explicit parameters or outcome flags; everything the Python
file itself computes is translated directly.
-/

set_option maxHeartbeats 1000000

namespace Domo

/-- A pixel position on an `h × w` raster grid. -/
abbrev Pix (h w : ℕ) := Fin h × Fin w

/-- A single-band raster image: each pixel is either masked (`none`) or
carries a rational value, mirroring Earth-Engine's masked pixels. -/
abbrev Img (h w : ℕ) := Pix h w → Option ℚ

/-- `img.lt(c)`: 1 where the value is `< c`, 0 otherwise, masked stays masked. -/
def ltI {h w : ℕ} (i : Img h w) (c : ℚ) : Img h w :=
  fun p => (i p).map (fun v => if v < c then 1 else 0)

/-- `img.gt(c)`: 1 where the value is `> c`, 0 otherwise. -/
def gtI {h w : ℕ} (i : Img h w) (c : ℚ) : Img h w :=
  fun p => (i p).map (fun v => if c < v then 1 else 0)

/-- `img.gte(c)`: 1 where the value is `≥ c`, 0 otherwise. -/
def gteI {h w : ℕ} (i : Img h w) (c : ℚ) : Img h w :=
  fun p => (i p).map (fun v => if c ≤ v then 1 else 0)

/-- `a.And(b)`: 1 where both are nonzero, masked where either is masked. -/
def andI {h w : ℕ} (i j : Img h w) : Img h w := fun p =>
  match i p, j p with
  | some a, some b => some (if a ≠ 0 ∧ b ≠ 0 then 1 else 0)
  | _, _ => none

/-- `img.selfMask()`: keep the value where it is nonzero, mask it elsewhere. -/
def selfMask {h w : ℕ} (i : Img h w) : Img h w := fun p =>
  match i p with
  | some v => if v ≠ 0 then some v else none
  | none => none

/-- `img.updateMask(m)`: keep the pixel where `m` is unmasked and nonzero. -/
def updateMask {h w : ℕ} (i m : Img h w) : Img h w := fun p =>
  match m p with
  | some v => if v ≠ 0 then i p else none
  | none => none

/-- `img.clip(roi)`: mask everything outside the region of interest. -/
def clip {h w : ℕ} (roiPix : Pix h w → Bool) (i : Img h w) : Img h w :=
  fun p => if roiPix p then i p else none

/-- Pointwise subtraction, masked where either operand is masked. -/
def subI {h w : ℕ} (i j : Img h w) : Img h w := fun p =>
  match i p, j p with
  | some a, some b => some (a - b)
  | _, _ => none

/-- Pointwise addition. -/
def addI {h w : ℕ} (i j : Img h w) : Img h w := fun p =>
  match i p, j p with
  | some a, some b => some (a + b)
  | _, _ => none

/-- Pointwise division (a zero denominator yields 0, the junk value of `ℚ`). -/
def divI {h w : ℕ} (i j : Img h w) : Img h w := fun p =>
  match i p, j p with
  | some a, some b => some (a / b)
  | _, _ => none

/-- `img.normalizedDifference([b1, b2])` over two already-selected bands:
`(b1 − b2) / (b1 + b2)` per pixel. -/
def ndImg {h w : ℕ} (i j : Img h w) : Img h w := fun p =>
  match i p, j p with
  | some a, some b => some ((a - b) / (a + b))
  | _, _ => none

/-- The set of unmasked pixels of an image. -/
def support {h w : ℕ} (i : Img h w) : Finset (Pix h w) :=
  Finset.univ.filter (fun p => (i p).isSome)

/-- 8-connectivity between grid pixels (the Earth-Engine default). -/
def adj8 {h w : ℕ} (p q : Pix h w) : Bool :=
  decide (p ≠ q) &&
    decide (((p.1 : ℤ) - (q.1 : ℤ)).natAbs ≤ 1) &&
    decide (((p.2 : ℤ) - (q.2 : ℤ)).natAbs ≤ 1)

/-- One breadth-first growth step of a connected region inside `s`. -/
def growStep {h w : ℕ} (s : Finset (Pix h w)) (x : Finset (Pix h w)) :
    Finset (Pix h w) :=
  x ∪ s.filter (fun q => ∃ p ∈ x, adj8 p q)

/-- Pixels of `s` reachable from `p` through 8-connected chains inside `s`
(computed by iterating the growth step enough times to saturate). -/
def reachSet {h w : ℕ} (s : Finset (Pix h w)) (p : Pix h w) :
    Finset (Pix h w) :=
  (growStep s)^[h * w] {p}

/-- Size of the 8-connected component of `p` within the pixel set `s`. -/
def ccSize {h w : ℕ} (s : Finset (Pix h w)) (p : Pix h w) : ℕ :=
  (reachSet s p).card

/-- `img.connectedPixelCount(maxSize)`: at each unmasked pixel, the number of
connected unmasked pixels, saturating at `maxSize`. -/
def connectedPixelCount {h w : ℕ} (maxSize : ℕ) (i : Img h w) : Img h w :=
  fun p =>
    if (i p).isSome then some ((min (ccSize (support i) p) maxSize : ℕ) : ℚ)
    else none

/-- A catalog image: acquisition timestamp, cloud-cover metadata, whether its
footprint intersects the current region of interest, and its bands. -/
structure EImg (h w : ℕ) where
  time : ℤ
  cloud : ℚ
  hitsRoi : Bool
  hasBand : String → Bool
  bands : String → Img h w

/-- `collection.filterDate(a, b)`: keep scenes with `a ≤ t < b`. -/
def filterDate {h w : ℕ} (a b : ℤ) (col : List (EImg h w)) : List (EImg h w) :=
  col.filter (fun i => decide (a ≤ i.time) && decide (i.time < b))

/-- `collection.filter(ee.Filter.lt(cloudKey, c))`. -/
def filterCloudLt {h w : ℕ} (c : ℚ) (col : List (EImg h w)) : List (EImg h w) :=
  col.filter (fun i => decide (i.cloud < c))

/-- `collection.filterBounds(roi)`: keep scenes whose footprint hits the ROI. -/
def filterBounds {h w : ℕ} (col : List (EImg h w)) : List (EImg h w) :=
  col.filter (fun i => i.hitsRoi)

/-- Insert a scene into a list already sorted by descending acquisition time. -/
def insertDesc {h w : ℕ} (a : EImg h w) : List (EImg h w) → List (EImg h w)
  | [] => [a]
  | b :: l => if b.time ≤ a.time then a :: b :: l else b :: insertDesc a l

/-- `collection.sort('system:time_start', False)`: descending by time. -/
def sortTimeDesc {h w : ℕ} : List (EImg h w) → List (EImg h w)
  | [] => []
  | a :: l => insertDesc a (sortTimeDesc l)

/-- `collection.first()` after the descending sort. -/
def firstImage {h w : ℕ} (col : List (EImg h w)) : Option (EImg h w) :=
  (sortTimeDesc col).head?

/-- Insert into a list of rationals sorted ascending (helper for the median). -/
def insertAsc (a : ℚ) : List ℚ → List ℚ
  | [] => [a]
  | b :: l => if a ≤ b then a :: b :: l else b :: insertAsc a l

/-- Ascending sort of rationals (helper for the median). -/
def sortAsc : List ℚ → List ℚ
  | [] => []
  | a :: l => insertAsc a (sortAsc l)

/-- Median of a list of rationals, `none` when the list is empty (models the
median reducer of `collection.median()`; for an even count the two middle
values are averaged). -/
def medianQ (l : List ℚ) : Option ℚ :=
  match l with
  | [] => none
  | _ =>
    let s := sortAsc l
    let n := s.length
    if n % 2 = 1 then some (s.getD (n / 2) 0)
    else some ((s.getD (n / 2 - 1) 0 + s.getD (n / 2) 0) / 2)

/-- `collection.median()` restricted to one band: the per-pixel median over
the unmasked values of that band across the collection. -/
def medComp {h w : ℕ} (col : List (EImg h w)) (band : String) : Img h w :=
  fun p => medianQ (col.filterMap (fun i => i.bands band p))

/-- `i.addBands(i.normalizedDifference([b1, b2]).rename(name))`. -/
def addND {h w : ℕ} (name b1 b2 : String) (i : EImg h w) : EImg h w :=
  { i with
    hasBand := fun b => b = name || i.hasBand b
    bands := fun b => if b = name then ndImg (i.bands b1) (i.bands b2) else i.bands b }

/-- The Landsat L2 radiometric rescale applied per band:
`band.multiply(0.0000275).add(-0.2)`. -/
def rescaleL {h w : ℕ} (i : Img h w) : Img h w :=
  fun p => (i p).map (fun v => v * (275 / 10000000) + (-(1 / 5)))

/- ### Area computation (`calculate_hectares`) -/

/-- The outcome of `stats.getInfo()` for the area reduction: either the call
raised (timeout / resource budget), or it returned a dictionary of
reducer outputs, here an association list from band name to value. -/
inductive ReduceOutcome where
  | failure
  | ok (result : List (String × ℚ))

/-- Association-list lookup, modelling `'area' in result` / `result.get('area')`. -/
def lookupQ (r : List (String × ℚ)) (k : String) : Option ℚ :=
  match r with
  | [] => none
  | (k1, v) :: rest => if k1 = k then some v else lookupQ rest k

/-- The body of `calculate_hectares` downstream of the remote call: `None` on
an exception; `0.0` when the result dictionary is falsy or lacks the
`'area'` key; otherwise the `'area'` value converted from m² to hectares. -/
def calcFromOutcome (o : ReduceOutcome) : Option ℚ :=
  match o with
  | .failure => none
  | .ok r =>
    match lookupQ r "area" with
    | none => some 0
    | some a => some (a / 10000)

/-- Whether a mask image keeps pixel `p`: unmasked with a nonzero value
(this is what `updateMask` tests). -/
def maskKeeps {h w : ℕ} (m : Img h w) (p : Pix h w) : Bool :=
  match m p with
  | some v => decide (v ≠ 0)
  | none => false

/-- The true value of the remote reduction:
`ee.Image.pixelArea().updateMask(mask)` summed over the geometry. -/
def areaSum {h w : ℕ} (m : Img h w) (roiPix : Pix h w → Bool)
    (pixelArea : Pix h w → ℚ) : ℚ :=
  ∑ p ∈ Finset.univ.filter (fun p => roiPix p && maskKeeps m p), pixelArea p

/-- `calculate_hectares(image_mask, geometry, scale)`: the remote reduction
either succeeds (`reduceOk`), delivering the dictionary
`{'area': areaSum}`, or raises, in which case the function returns `None`.
The `scale` argument only tunes the remote reduction's resolution and does
not enter the modelled sum. -/
def calculate_hectares {h w : ℕ} (reduceOk : Bool) (image_mask : Img h w)
    (roiPix : Pix h w → Bool) (pixelArea : Pix h w → ℚ) (scale : ℕ) : Option ℚ :=
  calcFromOutcome
    (if reduceOk then .ok [("area", areaSum image_mask roiPix pixelArea)]
     else .failure)

/- ### Time series (`get_time_series_chart`) -/

/-- Mean of a band over the ROI: `none` when no unmasked pixel of the band
falls inside the region (the reducer then reports a null). -/
def meanOverRoi {h w : ℕ} (roiPix : Pix h w → Bool) (i : EImg h w)
    (band : String) : Option ℚ :=
  let pts := Finset.univ.filter (fun p => roiPix p && (i.bands band p).isSome)
  if pts.card = 0 then none
  else some ((∑ p ∈ pts, (i.bands band p).getD 0) / (pts.card : ℚ))

/-- The per-image `stats` dictionary restricted to the metric band:
`none` when the band is absent from the image (`metric_band in stats`
fails), `some none` when present but null, `some (some v)` otherwise. -/
def statsDict {h w : ℕ} (roiPix : Pix h w → Bool) (i : EImg h w)
    (band : String) : Option (Option ℚ) :=
  if i.hasBand band then some (meanOverRoi roiPix i band) else none

/-- One pass of the chart data loop: the entry `{'Data': dt, 'Valor': val}`
for an image, or nothing when its stats lack the band or hold a null. -/
def chartEntry {h w : ℕ} (roiPix : Pix h w → Bool) (band : String)
    (i : EImg h w) : Option (ℤ × ℚ) :=
  match statsDict roiPix i band with
  | some (some v) => some (i.time, v)
  | _ => none

/-- `get_time_series_chart(collection, geometry, metric_band)`:
takes the first 20 images, pairs each acquisition timestamp with the mean
of the metric band, skipping images whose stats lack the band or are null;
returns `none` when the client-side fetch raises (`chartOk = false`).
The timestamp is kept in epoch milliseconds (the Python code converts it
to a datetime for display only). -/
def get_time_series_chart {h w : ℕ} (chartOk : Bool) (col : List (EImg h w))
    (roiPix : Pix h w → Bool) (band : String) : Option (List (ℤ × ℚ)) :=
  if chartOk then
    some ((col.take 20).filterMap (chartEntry roiPix band))
  else none

/- ### The four analysis lenses -/

/-- The monitoring objective chosen in the sidebar radio. -/
inductive Mode where
  | desmatamento
  | landsat
  | clorofila
  | queimadas
deriving DecidableEq

/-- The three numeric thresholds of the vegetation-loss rule
(`ndvi_now.lt`, `ndvi_ref.gt`, minimum cluster size); the source fixes
them at 0.2, 0.45 and 15. -/
structure DesmThr where
  tLow : ℚ
  tHigh : ℚ
  minPix : ℕ

/-- The thresholds hard-coded in the source. -/
def defaultThr : DesmThr := ⟨1 / 5, 9 / 20, 15⟩

/-- Visualization parameters dictionary. -/
structure VisParams where
  minV : Option ℚ
  maxV : Option ℚ
  palette : List String
deriving DecidableEq

def visWater : VisParams := ⟨some 0, some (6 / 10), ["white", "blue", "navy"]⟩
def visDesm : VisParams := ⟨none, none, ["red"]⟩
def visCloro : VisParams := ⟨some 0, some (15 / 100), ["blue", "lime", "red"]⟩
def visBurn : VisParams := ⟨some (-(1 / 2)), some (-(1 / 10)), ["black", "orange", "red"]⟩

/-- The environment of one "run analysis" action: the two catalogs, the
reference date, calendar arithmetic (`ee.Date.advance` in months), the
raster footprint and per-pixel area of the ROI, and the outcome flags of
the remote calls (area reduction, chart fetch, download-URL generation). -/
structure RunEnv (h w : ℕ) where
  landsatCol : List (EImg h w)
  s2Col : List (EImg h w)
  refDate : ℤ
  advMonths : ℤ → ℤ → ℤ
  roiPix : Pix h w → Bool
  pixelArea : Pix h w → ℚ
  reduceOk : Bool
  chartOk : Bool
  dlOk : Bool
  dlUrl : String

/-- `LANDSAT/LC09/C02/T1_L2` filtered to the ROI and the 2-month window. -/
def l9Windowed {h w : ℕ} (env : RunEnv h w) : List (EImg h w) :=
  filterDate (env.advMonths env.refDate (-2)) env.refDate
    (filterBounds env.landsatCol)

/-- The Landsat scene actually used: cloud filter, descending sort, first. -/
def landsatImg {h w : ℕ} (env : RunEnv h w) : Option (EImg h w) :=
  firstImage (filterCloudLt 20 (l9Windowed env))

/-- `COPERNICUS/S2_SR_HARMONIZED` filtered to the ROI. -/
def s2Roi {h w : ℕ} (env : RunEnv h w) : List (EImg h w) :=
  filterBounds env.s2Col

/-- The Sentinel-2 scene actually used: 1-month window, cloud filter,
descending sort, first. -/
def sentinelImg {h w : ℕ} (env : RunEnv h w) : Option (EImg h w) :=
  firstImage (filterCloudLt 20
    (filterDate (env.advMonths env.refDate (-1)) env.refDate (s2Roi env)))

/-- The image the selected lens works from. -/
def selectedImg {h w : ℕ} (env : RunEnv h w) : Mode → Option (EImg h w)
  | .landsat => landsatImg env
  | _ => sentinelImg env

/-- Everything a successful lens run hands to the finalization step. -/
structure LensResult (h w : ℕ) where
  maskFinal : Img h w
  domoMap : Img h w
  satSource : String
  visP : VisParams
  layerName : String
  scaleCalc : ℕ
  imgFinal : Img h w
  chartCol : Option (List (EImg h w) × String)

/-- NDVI of the current Sentinel-2 image:
`img.normalizedDifference(['B8','B4'])`. -/
def ndviNowOf {h w : ℕ} (img : EImg h w) : Img h w :=
  ndImg (img.bands "B8") (img.bands "B4")

/-- NDVI of the prior-year median composite
(`s2.filterDate(-13mo, -11mo).median().normalizedDifference(['B8','B4'])`). -/
def ndviRefOf {h w : ℕ} (env : RunEnv h w) : Img h w :=
  let histCol := filterDate (env.advMonths env.refDate (-13))
    (env.advMonths env.refDate (-11)) (s2Roi env)
  ndImg (medComp histCol "B8") (medComp histCol "B4")

/-- `alerta = ndvi_now.lt(tLow).And(ndvi_ref.gt(tHigh)).selfMask()`. -/
def alertaOf {h w : ℕ} (thr : DesmThr) (now ref : Img h w) : Img h w :=
  selfMask (andI (ltI now thr.tLow) (gtI ref thr.tHigh))

/-- `mask_final = alerta.connectedPixelCount(30).gte(minPix)`. -/
def desmMaskOf {h w : ℕ} (thr : DesmThr) (now ref : Img h w) : Img h w :=
  gteI (connectedPixelCount 30 (alertaOf thr now ref)) (thr.minPix : ℚ)

/-- MNDWI of the Landsat scene after the radiometric rescale:
`green.subtract(swir).divide(green.add(swir))`. -/
def mndwiOf {h w : ℕ} (img : EImg h w) : Img h w :=
  let green := rescaleL (img.bands "SR_B3")
  let swir := rescaleL (img.bands "SR_B6")
  divI (subI green swir) (addI green swir)

/-- The water mask of the Landsat lens: `mndwi.gt(0.0)`. -/
def waterMaskOf {h w : ℕ} (img : EImg h w) : Img h w :=
  gtI (mndwiOf img) 0

/-- One branch of the analysis handler, parameterized by the vegetation-loss
thresholds; `none` exactly when no qualifying image was found
(`st.warning`, no mask produced). -/
def lensResultT {h w : ℕ} (thr : DesmThr) (env : RunEnv h w) :
    Mode → Option (LensResult h w)
  | .landsat =>
    match landsatImg env with
    | none => none
    | some img =>
      let mndwi := mndwiOf img
      let mask := gtI mndwi 0
      some { maskFinal := mask
             domoMap := clip env.roiPix (updateMask mndwi mask)
             satSource := "Landsat 9"
             visP := visWater
             layerName := "Agua"
             scaleCalc := 30
             imgFinal := mndwi
             chartCol := none }
  | .desmatamento =>
    match sentinelImg env with
    | none => none
    | some img =>
      let now := ndviNowOf img
      let ref := ndviRefOf env
      let alerta := alertaOf thr now ref
      let mask := desmMaskOf thr now ref
      some { maskFinal := mask
             domoMap := clip env.roiPix (updateMask alerta mask)
             satSource := "Sentinel-2"
             visP := visDesm
             layerName := "Supressao"
             scaleCalc := 20
             imgFinal := alerta
             chartCol := some
               ((filterCloudLt 20 (filterDate (env.advMonths env.refDate (-6))
                   env.refDate (s2Roi env))).map (addND "NDVI" "B8" "B4"),
                "NDVI") }
  | .clorofila =>
    match sentinelImg env with
    | none => none
    | some img =>
      let waterMask := gtI (ndImg (img.bands "B3") (img.bands "B11")) (-(1 / 10))
      let ndci := ndImg (img.bands "B5") (img.bands "B4")
      some { maskFinal := waterMask
             domoMap := clip env.roiPix (updateMask ndci waterMask)
             satSource := "Sentinel-2"
             visP := visCloro
             layerName := "Clorofila"
             scaleCalc := 30
             imgFinal := ndci
             chartCol := some
               ((filterDate (env.advMonths env.refDate (-3)) env.refDate
                   (s2Roi env)).map (addND "NDCI" "B5" "B4"),
                "NDCI") }
  | .queimadas =>
    match sentinelImg env with
    | none => none
    | some img =>
      let nbr := ndImg (img.bands "B8") (img.bands "B12")
      let mask := ltI nbr (-(1 / 10))
      some { maskFinal := mask
             domoMap := clip env.roiPix (updateMask nbr mask)
             satSource := "Sentinel-2"
             visP := visBurn
             layerName := "Fogo"
             scaleCalc := 30
             imgFinal := nbr
             chartCol := some
               ((filterDate (env.advMonths env.refDate (-3)) env.refDate
                   (s2Roi env)).map (addND "NBR" "B8" "B12"),
                "NBR") }

/- ### Geometry resolver (`get_fast_geometry`) -/

/-- `get_fast_geometry(mun_ids)`: fetch each municipality boundary (`fetch`
models the guarded request + GeoJSON parse, `none` on any exception, which
the loop skips with `continue`); `None` when no boundary resolved,
otherwise the union of the successes simplified with tolerance 0.005°.
The shapely operations `unary_union` and `simplify` are external library
calls passed in as parameters. -/
def get_fast_geometry {Geom : Type} (uu : List Geom → Geom)
    (simplifyG : Geom → ℚ → Geom) (fetch : ℕ → Option Geom)
    (mun_ids : List ℕ) : Option Geom :=
  if (mun_ids.filterMap fetch).isEmpty then none
  else some (simplifyG (uu (mun_ids.filterMap fetch)) (5 / 1000))

/- ### Session state and the two button handlers -/

/-- The Streamlit session state: the keys initialized to `None` at startup
(plus `vis_params`, which is read through `.get`). `metric_area` is kept
exactly as in Python: `None`, or a number (`-1` is the error code). -/
structure SessionState (h w : ℕ) (Geom : Type) where
  roi : Option Geom
  domoMap : Option (Img h w)
  roiName : Option String
  mapBounds : Option (List (List ℚ))
  legendTitle : Option String
  satSource : Option String
  mapKey : Option String
  metricArea : Option ℚ
  chartData : Option (List (ℤ × ℚ))
  downloadUrl : Option String
  visParams : Option VisParams

/-- Session state right after the `keys_to_init` loop: everything `None`. -/
def initState {h w : ℕ} {Geom : Type} : SessionState h w Geom :=
  ⟨none, none, none, none, none, none, none, none, none, none, none⟩

/-- The `CARREGAR ÁREA` handler: with a non-empty selection it first resets
the four derived keys, then builds the geometry; on success it stores the
ROI (the geopandas→EE conversion is modelled as the identity), its name,
bounds and a fresh map key; on failure (`st.error`) it leaves the rest as
is. `bnds` models `roi.bounds().getInfo()` plus the min/max massaging. -/
def loadArea {h w : ℕ} {Geom : Type} (uu : List Geom → Geom)
    (simplifyG : Geom → ℚ → Geom) (bnds : Geom → List (List ℚ))
    (fetch : ℕ → Option Geom) (municipios : List (ℕ × String))
    (selecao : List String) (newKey : String)
    (s : SessionState h w Geom) : SessionState h w Geom :=
  if selecao.isEmpty then s
  else
    let s1 := { s with domoMap := none, chartData := none,
                       metricArea := none, downloadUrl := none }
    let ids := (municipios.filter (fun m => selecao.contains m.2)).map (·.1)
    match get_fast_geometry uu simplifyG fetch ids with
    | none => s1
    | some geom =>
      { s1 with roi := some geom
                roiName := some (String.intercalate ", " selecao)
                mapBounds := some (bnds geom)
                mapKey := some newKey }

/-- `scale_safe = 50 if len(selecao) > 3 else scale_calc`. -/
def scale_safe (nSel : ℕ) (scaleCalc : ℕ) : ℕ :=
  if 3 < nSel then 50 else scaleCalc

/-- The tail of the analysis handler once a mask exists: legend and vis
parameters, the guarded area computation (`-1` error code when
`calculate_hectares` returned `None`), the chart data (only when the lens
set a chart collection), and the guarded download URL. -/
def finalize {h w : ℕ} {Geom : Type} (env : RunEnv h w) (nSel : ℕ)
    (r : LensResult h w) (s : SessionState h w Geom) : SessionState h w Geom :=
  let area := calculate_hectares env.reduceOk r.maskFinal env.roiPix
    env.pixelArea (scale_safe nSel r.scaleCalc)
  let s1 := { s with
    domoMap := some r.domoMap
    satSource := some r.satSource
    legendTitle := some r.layerName
    visParams := some r.visP
    metricArea := some (match area with | none => (-1 : ℚ) | some a => a) }
  let s2 :=
    match r.chartCol with
    | some cb =>
      { s1 with chartData := get_time_series_chart env.chartOk cb.1 env.roiPix cb.2 }
    | none => s1
  { s2 with downloadUrl := if env.dlOk then some env.dlUrl else none }

/-- The `EXECUTAR ANÁLISE` handler: run the selected lens; when no
qualifying image exists (`st.warning`), the session state is untouched. -/
def runAnalysis {h w : ℕ} {Geom : Type} (env : RunEnv h w) (mode : Mode)
    (nSel : ℕ) (s : SessionState h w Geom) : SessionState h w Geom :=
  match lensResultT defaultThr env mode with
  | none => s
  | some r => finalize env nSel r s

/-- The metric display: `--` when unset, `Erro Calc.` for the `-1` error
code, otherwise the formatted number of hectares. -/
inductive AreaDisplay where
  | dash
  | erroCalc
  | hectares (a : ℚ)
deriving DecidableEq

/-- The `area_val` → `area_str` mapping of the metrics header. -/
def area_str (v : Option ℚ) : AreaDisplay :=
  match v with
  | none => .dash
  | some a => if a = -1 then .erroCalc else .hectares a

/-- One user action on the session. -/
inductive Action (h w : ℕ) (Geom : Type) where
  | load (fetch : ℕ → Option Geom) (municipios : List (ℕ × String))
      (selecao : List String) (newKey : String)
  | analyze (env : RunEnv h w) (mode : Mode) (nSel : ℕ)

/-- Dispatch one action; the analysis button is only reachable when an ROI
is loaded (`if st.session_state['roi'] and connected`). -/
def step {h w : ℕ} {Geom : Type} (uu : List Geom → Geom)
    (simplifyG : Geom → ℚ → Geom) (bnds : Geom → List (List ℚ))
    (s : SessionState h w Geom) : Action h w Geom → SessionState h w Geom
  | .load fetch municipios selecao newKey =>
    loadArea uu simplifyG bnds fetch municipios selecao newKey s
  | .analyze env mode nSel =>
    if s.roi.isSome then runAnalysis env mode nSel s else s

/-- A whole session: the action sequence folded over the initial state. -/
def runActions {h w : ℕ} {Geom : Type} (uu : List Geom → Geom)
    (simplifyG : Geom → ℚ → Geom) (bnds : Geom → List (List ℚ))
    (acts : List (Action h w Geom)) : SessionState h w Geom :=
  acts.foldl (step uu simplifyG bnds) initState

/- ### Predicates used by the statements -/

/-- Whether the pixel satisfies both vegetation comparisons:
current NDVI below `tLow` and historical NDVI above `tHigh` (both bands
unmasked there). -/
def bothCondB {h w : ℕ} (thr : DesmThr) (now ref : Img h w) (p : Pix h w) : Bool :=
  match now p, ref p with
  | some a, some b => decide (a < thr.tLow) && decide (thr.tHigh < b)
  | _, _ => false

/-- The set of pixels satisfying both vegetation comparisons. -/
def bothSet {h w : ℕ} (thr : DesmThr) (now ref : Img h w) : Finset (Pix h w) :=
  Finset.univ.filter (fun p => bothCondB thr now ref p)

/-- A scene qualifies for a window and cloud bound: footprint hits the ROI,
`startT ≤ t < endT`, and cloud-cover metadata strictly below `cmax`. -/
def qualifiesIn {h w : ℕ} (startT endT : ℤ) (cmax : ℚ) (i : EImg h w) : Bool :=
  i.hitsRoi && (decide (startT ≤ i.time) && decide (i.time < endT)) &&
    decide (i.cloud < cmax)

/-- The lens-specific lookback, in months before the reference date. -/
def lookbackMonths : Mode → ℤ
  | .landsat => -2
  | _ => -1

/-- The catalog a lens draws from. -/
def sourceCol {h w : ℕ} (env : RunEnv h w) : Mode → List (EImg h w)
  | .landsat => env.landsatCol
  | _ => env.s2Col

/-- Qualification for the selected lens: its lookback window ending at the
reference date, and the cloud bound 20. -/
def qualifiesFor {h w : ℕ} (env : RunEnv h w) (mode : Mode) (i : EImg h w) : Bool :=
  qualifiesIn (env.advMonths env.refDate (lookbackMonths mode)) env.refDate 20 i

/-- The per-lens `scale_calc` value set by each branch. -/
def modeScale : Mode → ℕ
  | .desmatamento => 20
  | _ => 30

/-- The three admissible shapes of `metric_area`: never set, the `-1` error
code, or a non-negative number of hectares. -/
def metricShape (v : Option ℚ) : Prop :=
  v = none ∨ v = some (-1) ∨ ∃ a, v = some a ∧ 0 ≤ a

/-- An action with a physically sensible environment: per-pixel areas are
non-negative (`ee.Image.pixelArea()` is). -/
def goodAction {h w : ℕ} {Geom : Type} : Action h w Geom → Prop
  | .load _ _ _ _ => True
  | .analyze env _ _ => ∀ p, 0 ≤ env.pixelArea p

/- ### Concrete fixtures for witnesses and counterexamples -/

namespace Fx

/-- A boundary fetch that always fails. -/
def fetchFail : ℕ → Option ℕ := fun _ => none

/-- A boundary fetch failing exactly on identifier 0. -/
def fetchPos : ℕ → Option ℕ := fun n => if n = 0 then none else some n

/-- A concrete stand-in for `unary_union` over `ℕ` geometries. -/
def uuN : List ℕ → ℕ := fun l => l.sum

/-- A concrete stand-in for `simplify`. -/
def simpN : ℕ → ℚ → ℕ := fun g _ => g

/-- A concrete stand-in for the bounds extraction. -/
def bndsN : ℕ → List (List ℚ) := fun _ => []

/-- A constant unmasked 1×1 raster. -/
def oneImg : Img 1 1 := fun _ => some 1

/-- A fully populated prior session state. -/
def s0 : SessionState 1 1 ℕ :=
  { roi := some 7, domoMap := some oneImg, roiName := some "X",
    mapBounds := some [], legendTitle := some "L", satSource := some "S",
    mapKey := some "k", metricArea := some 5, chartData := some [],
    downloadUrl := some "u", visParams := some visDesm }

/-- One municipality named `A` with identifier 1. -/
def mun1 : List (ℕ × String) := [(1, "A")]

/-- Landsat band values whose radiometric rescale gives green 0.30 and
SWIR 0.10. -/
def bandsL : String → Img 1 1 := fun b =>
  if b = "SR_B3" then (fun _ => some (200000 / 11))
  else if b = "SR_B6" then (fun _ => some (120000 / 11))
  else fun _ => none

/-- A cloud-free recent Landsat scene. -/
def imgL : EImg 1 1 :=
  { time := 50, cloud := 5, hitsRoi := true, hasBand := fun _ => true,
    bands := bandsL }

/-- An older qualifying Landsat scene. -/
def imgOld : EImg 1 1 :=
  { time := 40, cloud := 5, hitsRoi := true, hasBand := fun _ => true,
    bands := bandsL }

/-- Calendar arithmetic for fixtures: a month is 30 time units. -/
def advM : ℤ → ℤ → ℤ := fun d k => d + 30 * k

/-- An environment whose Landsat catalog holds two qualifying scenes. -/
def envL : RunEnv 1 1 :=
  { landsatCol := [imgOld, imgL], s2Col := [], refDate := 100,
    advMonths := advM, roiPix := fun _ => true, pixelArea := fun _ => 100,
    reduceOk := true, chartOk := true, dlOk := true, dlUrl := "u" }

/-- An environment with empty catalogs: no image ever qualifies. -/
def envEmpty : RunEnv 1 1 :=
  { landsatCol := [], s2Col := [], refDate := 100,
    advMonths := advM, roiPix := fun _ => true, pixelArea := fun _ => 100,
    reduceOk := true, chartOk := true, dlOk := true, dlUrl := "u" }

/-- Bands of a chart fixture image: a constant NDVI band. -/
def chartBands : String → Img 1 1 := fun b =>
  if b = "NDVI" then (fun _ => some 1) else fun _ => none

/-- A chart fixture image at time `t`. -/
def cImg (t : ℤ) : EImg 1 1 :=
  { time := t, cloud := 0, hitsRoi := true, hasBand := fun _ => true,
    bands := chartBands }

/-- A chart collection whose acquisition times are not monotone. -/
def col3 : List (EImg 1 1) := [cImg 3, cImg 5, cImg 1]

/-- The whole 1×1 grid as a region of interest. -/
def allPix : Pix 1 1 → Bool := fun _ => true

/-- A mask keeping nothing. -/
def mNone : Img 1 1 := fun _ => none

end Fx

/- ### Lemmas about the vegetation-loss mask -/

lemma bothCondB_iff {h w : ℕ} (thr : DesmThr) (now ref : Img h w) (p : Pix h w) :
    bothCondB thr now ref p = true ↔
      (∃ a, now p = some a ∧ a < thr.tLow) ∧
      (∃ b, ref p = some b ∧ thr.tHigh < b) := by
  unfold bothCondB
  cases hn : now p with
  | none => simp
  | some a =>
    cases hr : ref p with
    | none => simp
    | some b => simp

lemma alerta_isSome {h w : ℕ} (thr : DesmThr) (now ref : Img h w) (p : Pix h w) :
    (alertaOf thr now ref p).isSome = bothCondB thr now ref p := by
  unfold alertaOf selfMask andI ltI gtI bothCondB
  cases hn : now p with
  | none => simp
  | some a =>
    cases hr : ref p with
    | none => simp
    | some b =>
      by_cases h1 : a < thr.tLow <;> by_cases h2 : thr.tHigh < b <;>
        simp [h1, h2]

lemma support_alerta {h w : ℕ} (thr : DesmThr) (now ref : Img h w) :
    support (alertaOf thr now ref) = bothSet thr now ref := by
  ext p
  simp [support, bothSet, Finset.mem_filter, alerta_isSome]

lemma desmMask_one_iff {h w : ℕ} (now ref : Img h w) (p : Pix h w) :
    desmMaskOf defaultThr now ref p = some 1 ↔
      bothCondB defaultThr now ref p = true ∧
        15 ≤ ccSize (bothSet defaultThr now ref) p := by
  have hm : defaultThr.minPix = 15 := rfl
  unfold desmMaskOf gteI connectedPixelCount
  rw [support_alerta]
  cases hA : (alertaOf defaultThr now ref p).isSome with
  | false =>
    have hB : bothCondB defaultThr now ref p = false := by
      rw [← alerta_isSome]; exact hA
    simp [hA, hB]
  | true =>
    have hB : bothCondB defaultThr now ref p = true := by
      rw [← alerta_isSome]; exact hA
    have key : ((defaultThr.minPix : ℚ) ≤
        ((min (ccSize (bothSet defaultThr now ref) p) 30 : ℕ) : ℚ)) ↔
        15 ≤ ccSize (bothSet defaultThr now ref) p := by
      have hcast : ((defaultThr.minPix : ℚ) ≤
          ((min (ccSize (bothSet defaultThr now ref) p) 30 : ℕ) : ℚ)) ↔
          defaultThr.minPix ≤ min (ccSize (bothSet defaultThr now ref) p) 30 := by
        exact_mod_cast Iff.rfl
      rw [hcast, hm]
      omega
    by_cases hcc : 15 ≤ ccSize (bothSet defaultThr now ref) p
    · simp [hA, hB, key, hcc]
      omega
    · simp [hA, hB, key, hcc]
      omega

/-- C1: the vegetation-loss mask is true (value 1) at exactly the pixels
where the current NDVI is < 0.2, the historical NDVI is > 0.45, and the
8-connected component of the pixels satisfying both comparisons has at
least 15 pixels; the set over which components are counted is exactly the
set of pixels satisfying both comparisons; and the three thresholds do not
enter the water, chlorophyll, or burn lens outputs. -/
theorem vegetation_loss_mask_spec :
    (∀ (h w : ℕ) (now ref : Img h w) (p : Pix h w),
      desmMaskOf defaultThr now ref p = some 1 ↔
        ((∃ a, now p = some a ∧ a < 1 / 5) ∧
         (∃ b, ref p = some b ∧ 9 / 20 < b) ∧
         15 ≤ ccSize (bothSet defaultThr now ref) p))
  ∧ (∀ (h w : ℕ) (thr : DesmThr) (now ref : Img h w),
      support (alertaOf thr now ref) = bothSet thr now ref)
  ∧ (∀ (h w : ℕ) (thr thr' : DesmThr) (env : RunEnv h w),
      lensResultT thr env .landsat = lensResultT thr' env .landsat ∧
      lensResultT thr env .clorofila = lensResultT thr' env .clorofila ∧
      lensResultT thr env .queimadas = lensResultT thr' env .queimadas) := by
  refine ⟨?_, ?_, ?_⟩
  · intro h w now ref p
    rw [desmMask_one_iff]
    rw [bothCondB_iff]
    constructor
    · rintro ⟨⟨ha, hb⟩, hc⟩
      exact ⟨ha, hb, hc⟩
    · rintro ⟨ha, hb, hc⟩
      exact ⟨⟨ha, hb⟩, hc⟩
  · intro h w thr now ref
    exact support_alerta thr now ref
  · intro h w thr thr' env
    exact ⟨rfl, rfl, rfl⟩

/- ### Lemmas about the area computation -/

lemma calculate_hectares_ok {h w : ℕ} (m : Img h w) (roiPix : Pix h w → Bool)
    (pa : Pix h w → ℚ) (scale : ℕ) :
    calculate_hectares true m roiPix pa scale =
      some (areaSum m roiPix pa / 10000) := rfl

lemma calculate_hectares_failure {h w : ℕ} (m : Img h w) (roiPix : Pix h w → Bool)
    (pa : Pix h w → ℚ) (scale : ℕ) :
    calculate_hectares false m roiPix pa scale = none := rfl

lemma areaSum_nonneg {h w : ℕ} (m : Img h w) (roiPix : Pix h w → Bool)
    (pa : Pix h w → ℚ) (hpa : ∀ p, 0 ≤ pa p) : 0 ≤ areaSum m roiPix pa := by
  unfold areaSum
  exact Finset.sum_nonneg (fun p _ => hpa p)

lemma finalize_metricArea {h w : ℕ} {Geom : Type} (env : RunEnv h w) (nSel : ℕ)
    (r : LensResult h w) (s : SessionState h w Geom) :
    (finalize env nSel r s).metricArea =
      some (match calculate_hectares env.reduceOk r.maskFinal env.roiPix
          env.pixelArea (scale_safe nSel r.scaleCalc) with
        | none => (-1 : ℚ)
        | some a => a) := by
  unfold finalize
  cases r.chartCol <;> rfl

/-- C2: the area computation never conflates its three outcomes: the value
is `None` exactly when the remote reduction raised; an empty detection
yields the number 0, not `None`; a reduction failure yields `None`, which
the analysis handler stores as the `-1` error code and the metrics header
displays as the calculation-error string, never as a number. -/
theorem area_outcomes_distinct :
    (∀ o : ReduceOutcome, calcFromOutcome o = none ↔ o = .failure)
  ∧ (∀ (h w : ℕ) (roiPix : Pix h w → Bool) (pa : Pix h w → ℚ) (scale : ℕ),
      calculate_hectares true (fun _ => none) roiPix pa scale = some 0)
  ∧ (∀ (h w : ℕ) (m : Img h w) (roiPix : Pix h w → Bool) (pa : Pix h w → ℚ)
      (scale : ℕ), calculate_hectares false m roiPix pa scale = none)
  ∧ (∀ (h w : ℕ) (Geom : Type) (env : RunEnv h w) (nSel : ℕ)
      (r : LensResult h w) (s : SessionState h w Geom),
      (finalize { env with reduceOk := false } nSel r s).metricArea = some (-1))
  ∧ area_str (some (-1)) = .erroCalc ∧ area_str none = .dash := by
  refine ⟨?_, ?_, ?_, ?_, rfl, rfl⟩
  · intro o
    cases o with
    | failure => simp [calcFromOutcome]
    | ok r =>
      constructor
      · intro hc
        exfalso
        unfold calcFromOutcome at hc
        cases hl : lookupQ r "area" <;> simp [hl] at hc
      · intro hc
        exact absurd hc (by simp)
  · intro h w roiPix pa scale
    rw [calculate_hectares_ok]
    have hz : areaSum (h := h) (w := w) (fun _ => none) roiPix pa = 0 := by
      unfold areaSum
      have : ∀ p : Pix h w, (roiPix p && maskKeeps (fun _ => none) p) = false := by
        intro p
        simp [maskKeeps]
      simp [this]
    rw [hz]
    norm_num
  · intro h w m roiPix pa scale
    exact calculate_hectares_failure m roiPix pa scale
  · intro h w Geom env nSel r s
    rw [finalize_metricArea]
    simp [calculate_hectares_failure]

/-- C3: the geometry resolver skips identifiers whose fetch fails, returns
`None` exactly when every identifier fails, and otherwise returns the
union of the successfully fetched polygons simplified with tolerance
0.005 degrees. -/
theorem geometry_resolver_spec :
    ∀ (Geom : Type) (uu : List Geom → Geom) (simplifyG : Geom → ℚ → Geom)
      (fetch : ℕ → Option Geom),
      (∀ ids, get_fast_geometry uu simplifyG fetch ids = none ↔
        ∀ i ∈ ids, fetch i = none)
    ∧ (∀ ids, (∃ i ∈ ids, (fetch i).isSome) →
        get_fast_geometry uu simplifyG fetch ids =
          some (simplifyG (uu (ids.filterMap fetch)) (5 / 1000)))
    ∧ (∀ pre post bad, fetch bad = none →
        get_fast_geometry uu simplifyG fetch (pre ++ bad :: post) =
          get_fast_geometry uu simplifyG fetch (pre ++ post)) := by
  intro Geom uu simplifyG fetch
  refine ⟨?_, ?_, ?_⟩
  · intro ids
    unfold get_fast_geometry
    by_cases hE : ids.filterMap fetch = []
    · have h1 : (ids.filterMap fetch).isEmpty = true := by simp [hE]
      rw [List.filterMap_eq_nil_iff] at hE
      simp only [h1, if_true]
      simp only [true_iff]
      exact hE
    · have h1 : (ids.filterMap fetch).isEmpty = false := by simp [hE]
      simp only [h1, Bool.false_eq_true, if_false]
      constructor
      · intro hc
        exact absurd hc (by simp)
      · intro hall
        exact absurd (List.filterMap_eq_nil_iff.mpr hall) hE
  · intro ids hex
    obtain ⟨i, hi, hsome⟩ := hex
    obtain ⟨g, hg⟩ := Option.isSome_iff_exists.mp hsome
    have hne : ids.filterMap fetch ≠ [] := by
      intro hnil
      rw [List.filterMap_eq_nil_iff] at hnil
      rw [hnil i hi] at hg
      exact Option.noConfusion hg
    unfold get_fast_geometry
    have : (ids.filterMap fetch).isEmpty = false := by
      rw [Bool.eq_false_iff]
      intro hE
      exact hne (List.isEmpty_iff.mp hE)
    simp [this]
  · intro pre post bad hbad
    have heq : List.filterMap fetch (pre ++ bad :: post) =
        List.filterMap fetch (pre ++ post) := by
      simp [List.filterMap_append, List.filterMap_cons, hbad]
    unfold get_fast_geometry
    rw [heq]

/-- C3 witness: with identifier 0 failing and 1, 2 succeeding, the resolver
returns the simplified union of the two successes, and inserting the
failing identifier into a list does not change the result. -/
theorem geometry_resolver_witness :
    get_fast_geometry Fx.uuN Fx.simpN Fx.fetchPos [0, 1, 2] =
      some (Fx.simpN (Fx.uuN ([0, 1, 2].filterMap Fx.fetchPos)) (5 / 1000)) ∧
    get_fast_geometry Fx.uuN Fx.simpN Fx.fetchPos ([5] ++ 0 :: [2]) =
      get_fast_geometry Fx.uuN Fx.simpN Fx.fetchPos ([5] ++ [2]) :=
  ⟨(geometry_resolver_spec ℕ Fx.uuN Fx.simpN Fx.fetchPos).2.1 [0, 1, 2]
      ⟨1, by decide, by decide⟩,
   (geometry_resolver_spec ℕ Fx.uuN Fx.simpN Fx.fetchPos).2.2 [5] [2] 0
      (by decide)⟩

/- ### Lemmas about the descending time sort and the image selection -/

lemma mem_insertDesc {h w : ℕ} (a x : EImg h w) (l : List (EImg h w)) :
    x ∈ insertDesc a l ↔ x = a ∨ x ∈ l := by
  induction l with
  | nil => simp [insertDesc]
  | cons b l ih =>
    unfold insertDesc
    by_cases hb : b.time ≤ a.time
    · simp [hb]
    · simp only [hb, if_false, List.mem_cons, ih]
      tauto

lemma insertDesc_ne_nil {h w : ℕ} (a : EImg h w) (l : List (EImg h w)) :
    insertDesc a l ≠ [] := by
  cases l with
  | nil => simp [insertDesc]
  | cons b l =>
    unfold insertDesc
    split <;> simp

lemma sortTimeDesc_eq_nil_iff {h w : ℕ} (l : List (EImg h w)) :
    sortTimeDesc l = [] ↔ l = [] := by
  cases l with
  | nil => simp [sortTimeDesc]
  | cons a l => simp [sortTimeDesc, insertDesc_ne_nil]

lemma mem_sortTimeDesc {h w : ℕ} (x : EImg h w) (l : List (EImg h w)) :
    x ∈ sortTimeDesc l ↔ x ∈ l := by
  induction l with
  | nil => simp [sortTimeDesc]
  | cons a l ih => simp [sortTimeDesc, mem_insertDesc, ih]

lemma sortTimeDesc_head_max {h w : ℕ} (l : List (EImg h w)) (m : EImg h w)
    (r : List (EImg h w)) (hmr : sortTimeDesc l = m :: r) :
    ∀ x ∈ l, x.time ≤ m.time := by
  induction l generalizing m r with
  | nil => simp [sortTimeDesc] at hmr
  | cons a l ih =>
    rw [sortTimeDesc] at hmr
    intro x hx
    cases hs : sortTimeDesc l with
    | nil =>
      have hl : l = [] := (sortTimeDesc_eq_nil_iff l).mp hs
      rw [hs] at hmr
      unfold insertDesc at hmr
      cases hmr
      subst hl
      rcases List.mem_cons.mp hx with hxa | hxl
      · rw [hxa]
      · cases hxl
    | cons m' r' =>
      rw [hs] at hmr
      unfold insertDesc at hmr
      by_cases hcmp : m'.time ≤ a.time
      · rw [if_pos hcmp] at hmr
        have hma : m = a := by
          injection hmr with h1 h2
          exact h1.symm
        rcases List.mem_cons.mp hx with hxa | hxl
        · rw [hxa, hma]
        · rw [hma]
          exact (ih m' r' hs x hxl).trans hcmp
      · rw [if_neg hcmp] at hmr
        have hmm : m = m' := by
          injection hmr with h1 h2
          exact h1.symm
        rcases List.mem_cons.mp hx with hxa | hxl
        · rw [hxa, hmm]
          exact le_of_lt (lt_of_not_le hcmp)
        · rw [hmm]
          exact ih m' r' hs x hxl

lemma firstImage_eq_none_iff {h w : ℕ} (col : List (EImg h w)) :
    firstImage col = none ↔ col = [] := by
  unfold firstImage
  rw [List.head?_eq_none_iff, sortTimeDesc_eq_nil_iff]

lemma firstImage_mem_max {h w : ℕ} (col : List (EImg h w)) (m : EImg h w)
    (hm : firstImage col = some m) :
    m ∈ col ∧ ∀ x ∈ col, x.time ≤ m.time := by
  unfold firstImage at hm
  cases hs : sortTimeDesc col with
  | nil => rw [hs] at hm; cases hm
  | cons m' r =>
    rw [hs] at hm
    have hmm : m' = m := by
      simpa using hm
    subst hmm
    constructor
    · rw [← mem_sortTimeDesc, hs]
      exact List.mem_cons_self _ _
    · exact sortTimeDesc_head_max col _ _ hs

lemma mem_pipeline {h w : ℕ} (a b : ℤ) (c : ℚ) (col : List (EImg h w))
    (i : EImg h w) :
    i ∈ filterCloudLt c (filterDate a b (filterBounds col)) ↔
      i ∈ col ∧ qualifiesIn a b c i = true := by
  simp only [filterCloudLt, filterDate, filterBounds, qualifiesIn,
    List.mem_filter, Bool.and_eq_true, decide_eq_true_eq]
  tauto

lemma selectedImg_eq {h w : ℕ} (env : RunEnv h w) (mode : Mode) :
    selectedImg env mode = firstImage (filterCloudLt 20
      (filterDate (env.advMonths env.refDate (lookbackMonths mode)) env.refDate
        (filterBounds (sourceCol env mode)))) := by
  cases mode <;> rfl

/-- C5: the imagery selector restricts the catalog to the ROI and the
lens-specific lookback window ending at the reference date, keeps only
scenes with cloud cover strictly below 20, and selects a most recent
survivor; it returns `none` exactly when no scene qualifies, in which case
the run produces no mask and leaves the session state untouched. -/
theorem imagery_selector_spec :
    ∀ (h w : ℕ) (env : RunEnv h w) (mode : Mode),
      (selectedImg env mode = none ↔
        ∀ i ∈ sourceCol env mode, ¬ qualifiesFor env mode i = true)
    ∧ (∀ i, selectedImg env mode = some i →
        i ∈ sourceCol env mode ∧ qualifiesFor env mode i = true ∧
        ∀ j ∈ sourceCol env mode, qualifiesFor env mode j = true →
          j.time ≤ i.time)
    ∧ (∀ (Geom : Type) (nSel : ℕ) (s : SessionState h w Geom),
        selectedImg env mode = none →
        lensResultT defaultThr env mode = none ∧
        runAnalysis env mode nSel s = s) := by
  intro h w env mode
  have hpipe : ∀ i, i ∈ filterCloudLt 20
      (filterDate (env.advMonths env.refDate (lookbackMonths mode)) env.refDate
        (filterBounds (sourceCol env mode))) ↔
      i ∈ sourceCol env mode ∧ qualifiesFor env mode i = true := by
    intro i
    exact mem_pipeline _ _ _ _ i
  refine ⟨?_, ?_, ?_⟩
  · rw [selectedImg_eq, firstImage_eq_none_iff, List.eq_nil_iff_forall_not_mem]
    constructor
    · intro hall i hi hq
      exact hall i ((hpipe i).mpr ⟨hi, hq⟩)
    · intro hall i hi
      obtain ⟨hmem, hq⟩ := (hpipe i).mp hi
      exact hall i hmem hq
  · intro i hi
    rw [selectedImg_eq] at hi
    obtain ⟨hmem, hmax⟩ := firstImage_mem_max _ i hi
    obtain ⟨hcol, hq⟩ := (hpipe i).mp hmem
    refine ⟨hcol, hq, ?_⟩
    intro j hj hjq
    exact hmax j ((hpipe j).mpr ⟨hj, hjq⟩)
  · intro Geom nSel s hnone
    have hlens : lensResultT defaultThr env mode = none := by
      cases mode with
      | landsat =>
        have : landsatImg env = none := hnone
        simp [lensResultT, this]
      | desmatamento =>
        have : sentinelImg env = none := hnone
        simp [lensResultT, this]
      | clorofila =>
        have : sentinelImg env = none := hnone
        simp [lensResultT, this]
      | queimadas =>
        have : sentinelImg env = none := hnone
        simp [lensResultT, this]
    refine ⟨hlens, ?_⟩
    unfold runAnalysis
    rw [hlens]

/-- C5 witness: in a concrete two-scene Landsat catalog the selector picks
the qualifying scene, and with empty catalogs the chlorophyll lens
produces no result. -/
theorem imagery_selector_witness :
    (Fx.imgL ∈ sourceCol Fx.envL .landsat ∧
      qualifiesFor Fx.envL .landsat Fx.imgL = true) ∧
    lensResultT defaultThr Fx.envEmpty .clorofila = none :=
  ⟨⟨((imagery_selector_spec 1 1 Fx.envL .landsat).2.1 Fx.imgL rfl).1,
    ((imagery_selector_spec 1 1 Fx.envL .landsat).2.1 Fx.imgL rfl).2.1⟩,
   ((imagery_selector_spec 1 1 Fx.envEmpty .clorofila).2.2 ℕ 1 Fx.s0 rfl).1⟩

/-- C6: after the Landsat radiometric rescale, the water index is
`(green − swir) / (green + swir)` and the mask is true exactly where it
exceeds 0; for rescaled green 0.30 and SWIR 0.10 the index is 0.50 and
the mask is true. -/
theorem water_index_spec :
    ∀ (h w : ℕ) (img : EImg h w) (p : Pix h w) (g s : ℚ),
      rescaleL (img.bands "SR_B3") p = some g →
      rescaleL (img.bands "SR_B6") p = some s →
      mndwiOf img p = some ((g - s) / (g + s)) ∧
      (waterMaskOf img p = some 1 ↔ 0 < (g - s) / (g + s)) ∧
      (g = 3 / 10 → s = 1 / 10 →
        mndwiOf img p = some (1 / 2) ∧ waterMaskOf img p = some 1) := by
  intro h w img p g s hg hs
  have hmn : mndwiOf img p = some ((g - s) / (g + s)) := by
    unfold mndwiOf divI subI addI
    rw [hg, hs]
  have hmask : waterMaskOf img p = some 1 ↔ 0 < (g - s) / (g + s) := by
    unfold waterMaskOf gtI
    rw [show mndwiOf img p = some ((g - s) / (g + s)) from hmn]
    by_cases hpos : 0 < (g - s) / (g + s)
    · simp [hpos]
    · simp [hpos]
  refine ⟨hmn, hmask, ?_⟩
  intro hg3 hs1
  subst hg3
  subst hs1
  have hval : ((3 : ℚ) / 10 - 1 / 10) / (3 / 10 + 1 / 10) = 1 / 2 := by
    norm_num
  refine ⟨by rw [hmn, hval], ?_⟩
  rw [hmask, hval]
  norm_num

/-- C6 witness: a concrete Landsat scene whose raw band values rescale to
green 0.30 and SWIR 0.10 gets water index 0.50 and a true mask. -/
theorem water_index_witness :
    mndwiOf Fx.imgL ((0 : Fin 1), (0 : Fin 1)) = some (1 / 2) ∧
    waterMaskOf Fx.imgL ((0 : Fin 1), (0 : Fin 1)) = some 1 :=
  (water_index_spec 1 1 Fx.imgL ((0 : Fin 1), (0 : Fin 1)) (3 / 10) (1 / 10)
    (by simp [rescaleL, Fx.imgL, Fx.bandsL]; norm_num)
    (by simp [rescaleL, Fx.imgL, Fx.bandsL]; norm_num)).2.2 rfl rfl

/-- C4 counterexample: the claim fails for the load-area action. When the
boundary fetch fails, the handler has already reset the derived keys, so
the previously stored map layer and metric area do NOT remain unchanged
(the ROI itself does). -/
theorem load_failure_counterexample :
    (loadArea Fx.uuN Fx.simpN Fx.bndsN Fx.fetchFail Fx.mun1 ["A"] "k"
        Fx.s0).metricArea = none ∧
    Fx.s0.metricArea = some 5 ∧
    (loadArea Fx.uuN Fx.simpN Fx.bndsN Fx.fetchFail Fx.mun1 ["A"] "k"
        Fx.s0).metricArea ≠ Fx.s0.metricArea ∧
    (loadArea Fx.uuN Fx.simpN Fx.bndsN Fx.fetchFail Fx.mun1 ["A"] "k"
        Fx.s0).domoMap ≠ Fx.s0.domoMap ∧
    (loadArea Fx.uuN Fx.simpN Fx.bndsN Fx.fetchFail Fx.mun1 ["A"] "k"
        Fx.s0).roi = Fx.s0.roi := by
  have h1 : (loadArea Fx.uuN Fx.simpN Fx.bndsN Fx.fetchFail Fx.mun1 ["A"] "k"
      Fx.s0).metricArea = none := rfl
  have h2 : Fx.s0.metricArea = some 5 := rfl
  have h3 : (loadArea Fx.uuN Fx.simpN Fx.bndsN Fx.fetchFail Fx.mun1 ["A"] "k"
      Fx.s0).domoMap = none := rfl
  have h4 : Fx.s0.domoMap = some Fx.oneImg := rfl
  refine ⟨h1, h2, ?_, ?_, rfl⟩
  · rw [h1, h2]
    simp
  · rw [h3, h4]
    simp

/-- C4 amended: a failed run-analysis action (no qualifying image) leaves
the whole session state unchanged; a failed load-area action leaves the
ROI, its name, the bounds and the map key unchanged, but has already reset
the map layer, chart data, metric area and download URL to `None` (the
reset precedes the fetch attempt, whatever its outcome). -/
theorem failed_actions_preserve_state :
    (∀ (h w : ℕ) (Geom : Type) (env : RunEnv h w) (mode : Mode) (nSel : ℕ)
      (s : SessionState h w Geom),
      lensResultT defaultThr env mode = none → runAnalysis env mode nSel s = s)
  ∧ (∀ (h w : ℕ) (Geom : Type) (uu : List Geom → Geom)
      (simplifyG : Geom → ℚ → Geom) (bnds : Geom → List (List ℚ))
      (fetch : ℕ → Option Geom) (municipios : List (ℕ × String))
      (selecao : List String) (newKey : String) (s : SessionState h w Geom),
      selecao.isEmpty = false →
      get_fast_geometry uu simplifyG fetch
        ((municipios.filter (fun m => selecao.contains m.2)).map (·.1)) = none →
      loadArea uu simplifyG bnds fetch municipios selecao newKey s =
        { s with domoMap := none, chartData := none, metricArea := none,
                 downloadUrl := none }) := by
  constructor
  · intro h w Geom env mode nSel s hnone
    unfold runAnalysis
    rw [hnone]
  · intro h w Geom uu simplifyG bnds fetch municipios selecao newKey s hsel hgeom
    unfold loadArea
    simp only [hsel, Bool.false_eq_true, if_false]
    rw [hgeom]

/-- C4 witness: with empty catalogs the analysis leaves a populated state
unchanged, and a failing load on a populated state equals that state with
the four derived keys reset. -/
theorem failed_actions_witness :
    runAnalysis Fx.envEmpty .landsat 1 Fx.s0 = Fx.s0 ∧
    loadArea Fx.uuN Fx.simpN Fx.bndsN Fx.fetchFail Fx.mun1 ["A"] "k" Fx.s0 =
      { Fx.s0 with domoMap := none, chartData := none, metricArea := none,
                   downloadUrl := none } :=
  ⟨failed_actions_preserve_state.1 1 1 ℕ Fx.envEmpty .landsat 1 Fx.s0 rfl,
   failed_actions_preserve_state.2 1 1 ℕ Fx.uuN Fx.simpN Fx.bndsN Fx.fetchFail
     Fx.mun1 ["A"] "k" Fx.s0 rfl rfl⟩

/- ### Lemmas about the time series -/

lemma filterMap_fst_sublist {h w : ℕ} (f : EImg h w → Option (ℤ × ℚ))
    (hf : ∀ i e, f i = some e → e.1 = i.time) :
    ∀ L : List (EImg h w),
      ((L.filterMap f).map Prod.fst).Sublist (L.map (fun i => i.time)) := by
  intro L
  induction L with
  | nil => simp
  | cons a L ih =>
    rw [List.filterMap_cons]
    cases hfa : f a with
    | none =>
      simp only [List.map_cons]
      exact ih.cons _
    | some e =>
      simp only [List.map_cons]
      rw [hf a e hfa]
      exact ih.cons₂ _

/-- Evaluation of the chart on the concrete unsorted three-image fixture. -/
lemma chart_col3_eval :
    get_time_series_chart true Fx.col3 Fx.allPix "NDVI" =
      some [(3, 1), (5, 1), (1, 1)] := by
  have hmean : ∀ t : ℤ, meanOverRoi Fx.allPix (Fx.cImg t) "NDVI" = some 1 := by
    intro t
    unfold meanOverRoi Fx.cImg Fx.chartBands Fx.allPix
    norm_num
  have hsd : ∀ t : ℤ, statsDict Fx.allPix (Fx.cImg t) "NDVI" = some (some 1) := by
    intro t
    unfold statsDict
    rw [hmean]
    simp [Fx.cImg]
  unfold get_time_series_chart Fx.col3
  rw [if_pos rfl]
  simp [chartEntry, hsd]
  refine ⟨rfl, rfl, rfl⟩

/-- C7 amended: the time series has at most 20 entries, each pairing an
acquisition timestamp with the mean of the metric band over the ROI (for
images among the first 20 of the collection whose stats carry the band);
it is empty when the collection is empty; and it is ordered by acquisition
time whenever the input collection is — the code performs no sort of its
own, so the output merely preserves collection order. -/
theorem time_series_spec :
    ∀ (h w : ℕ) (col : List (EImg h w)) (roiPix : Pix h w → Bool)
      (band : String) (l : List (ℤ × ℚ)),
      get_time_series_chart true col roiPix band = some l →
      l.length ≤ 20 ∧
      (∀ e ∈ l, ∃ i ∈ col.take 20,
        statsDict roiPix i band = some (some e.2) ∧ e.1 = i.time) ∧
      ((col.map (fun i => i.time)).Sorted (· ≤ ·) →
        (l.map Prod.fst).Sorted (· ≤ ·)) ∧
      (col = [] → l = []) := by
  intro h w col roiPix band l hl
  unfold get_time_series_chart at hl
  rw [if_pos rfl] at hl
  have hl2 := Option.some.inj hl
  subst hl2
  have hft : ∀ i e, chartEntry roiPix band i = some e → e.1 = i.time := by
    intro i e hfi
    unfold chartEntry at hfi
    cases hsd : statsDict roiPix i band with
    | none =>
      rw [hsd] at hfi
      have hfi2 : (none : Option (ℤ × ℚ)) = some e := hfi
      cases hfi2
    | some o =>
      cases o with
      | none =>
        rw [hsd] at hfi
        have hfi2 : (none : Option (ℤ × ℚ)) = some e := hfi
        cases hfi2
      | some v =>
        rw [hsd] at hfi
        have hfi2 : some (i.time, v) = some e := hfi
        rw [← Option.some.inj hfi2]
  refine ⟨?_, ?_, ?_, ?_⟩
  · exact (List.length_filterMap_le (chartEntry roiPix band) (col.take 20)).trans
      (List.length_take_le 20 col)
  · intro e he
    obtain ⟨i, hi, hfi⟩ := List.mem_filterMap.mp he
    refine ⟨i, hi, ?_⟩
    unfold chartEntry at hfi
    cases hsd : statsDict roiPix i band with
    | none =>
      rw [hsd] at hfi
      have hfi2 : (none : Option (ℤ × ℚ)) = some e := hfi
      cases hfi2
    | some o =>
      cases o with
      | none =>
        rw [hsd] at hfi
        have hfi2 : (none : Option (ℤ × ℚ)) = some e := hfi
        cases hfi2
      | some v =>
        rw [hsd] at hfi
        have hfi2 : some (i.time, v) = some e := hfi
        rw [← Option.some.inj hfi2]
        exact ⟨rfl, rfl⟩
  · intro hsorted
    have h1 : (((col.take 20).filterMap (chartEntry roiPix band)).map
        Prod.fst).Sublist ((col.take 20).map (fun i => i.time)) :=
      filterMap_fst_sublist (chartEntry roiPix band) hft (col.take 20)
    have h2 : ((col.take 20).map (fun i => i.time)).Sublist
        (col.map (fun i => i.time)) := by
      rw [List.map_take]
      exact List.take_sublist 20 _
    exact List.Pairwise.sublist (h1.trans h2) hsorted
  · intro hcol
    subst hcol
    rfl

/-- C7 counterexample: on a collection whose acquisition times are 3, 5, 1
the code returns the series in collection order — neither ascending nor
descending by time — so the series is not "ordered by acquisition time". -/
theorem time_series_order_counterexample :
    get_time_series_chart true Fx.col3 Fx.allPix "NDVI" =
      some [(3, 1), (5, 1), (1, 1)] ∧
    ¬ List.Sorted (fun a b : ℤ × ℚ => a.1 ≤ b.1) [(3, 1), (5, 1), (1, 1)] ∧
    ¬ List.Sorted (fun a b : ℤ × ℚ => b.1 ≤ a.1) [(3, 1), (5, 1), (1, 1)] :=
  ⟨chart_col3_eval, by decide, by decide⟩

/-- C7 witness: the amended theorem applied to the concrete three-image
collection. -/
theorem time_series_witness :
    ([((3 : ℤ), (1 : ℚ)), (5, 1), (1, 1)]).length ≤ 20 :=
  (time_series_spec 1 1 Fx.col3 Fx.allPix "NDVI" [(3, 1), (5, 1), (1, 1)]
    chart_col3_eval).1

/- ### Monotonicity of the area reduction -/

lemma areaSum_mono {h w : ℕ} (m m2 : Img h w) (roiPix : Pix h w → Bool)
    (pa : Pix h w → ℚ) (hpa : ∀ p, 0 ≤ pa p)
    (hsub : ∀ p, maskKeeps m p = true → maskKeeps m2 p = true) :
    areaSum m roiPix pa ≤ areaSum m2 roiPix pa := by
  unfold areaSum
  apply Finset.sum_le_sum_of_subset_of_nonneg
  · intro p hp
    simp only [Finset.mem_filter, Bool.and_eq_true] at hp ⊢
    exact ⟨hp.1, hp.2.1, hsub p hp.2.2⟩
  · intro p _ _
    exact hpa p

/-- C8: with non-negative per-pixel areas, a successfully computed area is
non-negative, and a mask that keeps a subset of another mask's pixels
never yields a larger area. -/
theorem area_monotone_nonneg :
    ∀ (h w : ℕ) (m m2 : Img h w) (roiPix : Pix h w → Bool) (pa : Pix h w → ℚ)
      (scale scale2 : ℕ),
      (∀ p, 0 ≤ pa p) →
      (∀ p, maskKeeps m p = true → maskKeeps m2 p = true) →
      ∃ a a2, calculate_hectares true m roiPix pa scale = some a ∧
        calculate_hectares true m2 roiPix pa scale2 = some a2 ∧
        0 ≤ a ∧ 0 ≤ a2 ∧ a ≤ a2 := by
  intro h w m m2 roiPix pa scale scale2 hpa hsub
  refine ⟨areaSum m roiPix pa / 10000, areaSum m2 roiPix pa / 10000,
    calculate_hectares_ok m roiPix pa scale,
    calculate_hectares_ok m2 roiPix pa scale2, ?_, ?_, ?_⟩
  · exact div_nonneg (areaSum_nonneg m roiPix pa hpa) (by norm_num)
  · exact div_nonneg (areaSum_nonneg m2 roiPix pa hpa) (by norm_num)
  · have hle := areaSum_mono m m2 roiPix pa hpa hsub
    have h10 : (0 : ℚ) < 10000 := by norm_num
    exact (div_le_div_iff_of_pos_right h10).mpr hle

/-- C8 witness: the empty mask against a full mask on a concrete grid. -/
theorem area_monotone_witness :
    ∃ a a2, calculate_hectares true Fx.mNone Fx.allPix (fun _ => 100) 30 =
        some a ∧
      calculate_hectares true Fx.oneImg Fx.allPix (fun _ => 100) 30 = some a2 ∧
      0 ≤ a ∧ 0 ≤ a2 ∧ a ≤ a2 :=
  area_monotone_nonneg 1 1 Fx.mNone Fx.oneImg Fx.allPix (fun _ => 100) 30 30
    (fun _ => by norm_num)
    (fun p hp => by simp [Fx.mNone, maskKeeps] at hp)

/-- C9: the area reduction scale coarsens to 50 whenever more than three
municipalities are selected, and otherwise equals the lens-specific scale,
which always lies in the 10–30 range (20 for vegetation loss, 30 for the
other lenses). -/
theorem scale_selection_spec :
    (∀ n c : ℕ, scale_safe (n + 4) c = 50)
  ∧ (∀ c : ℕ, scale_safe 0 c = c ∧ scale_safe 1 c = c ∧ scale_safe 2 c = c ∧
      scale_safe 3 c = c)
  ∧ (∀ (h w : ℕ) (thr : DesmThr) (env : RunEnv h w) (mode : Mode),
      (lensResultT thr env mode).all
        (fun r => decide (r.scaleCalc = modeScale mode ∧ 10 ≤ r.scaleCalc ∧
          r.scaleCalc ≤ 30)) = true) := by
  refine ⟨?_, ?_, ?_⟩
  · intro n c
    unfold scale_safe
    rw [if_pos (by omega)]
  · intro c
    exact ⟨rfl, rfl, rfl, rfl⟩
  · intro h w thr env mode
    cases mode with
    | landsat =>
      cases himg : landsatImg env with
      | none => simp [lensResultT, himg, Option.all]
      | some img => simp [lensResultT, himg, Option.all, modeScale]
    | desmatamento =>
      cases himg : sentinelImg env with
      | none => simp [lensResultT, himg, Option.all]
      | some img => simp [lensResultT, himg, Option.all, modeScale]
    | clorofila =>
      cases himg : sentinelImg env with
      | none => simp [lensResultT, himg, Option.all]
      | some img => simp [lensResultT, himg, Option.all, modeScale]
    | queimadas =>
      cases himg : sentinelImg env with
      | none => simp [lensResultT, himg, Option.all]
      | some img => simp [lensResultT, himg, Option.all, modeScale]

/- ### The metric-area invariant over whole sessions -/

lemma metricShape_step {h w : ℕ} {Geom : Type} (uu : List Geom → Geom)
    (sG : Geom → ℚ → Geom) (bnds : Geom → List (List ℚ))
    (s : SessionState h w Geom) (a : Action h w Geom)
    (hs : metricShape s.metricArea) (ha : goodAction a) :
    metricShape (step uu sG bnds s a).metricArea := by
  cases a with
  | load fetch municipios selecao newKey =>
    simp only [step, loadArea]
    by_cases hsel : selecao.isEmpty
    · rw [if_pos hsel]
      exact hs
    · rw [if_neg hsel]
      cases hg : get_fast_geometry uu sG fetch
          ((municipios.filter (fun m => selecao.contains m.2)).map (·.1)) with
      | none => exact Or.inl rfl
      | some geom => exact Or.inl rfl
  | analyze env mode nSel =>
    simp only [step]
    by_cases hroi : s.roi.isSome
    · rw [if_pos hroi]
      unfold runAnalysis
      cases hl : lensResultT defaultThr env mode with
      | none => exact hs
      | some r =>
        rw [finalize_metricArea]
        cases hok : env.reduceOk with
        | false =>
          rw [calculate_hectares_failure]
          exact Or.inr (Or.inl rfl)
        | true =>
          rw [calculate_hectares_ok]
          refine Or.inr (Or.inr ⟨areaSum r.maskFinal env.roiPix env.pixelArea
            / 10000, rfl, ?_⟩)
          exact div_nonneg
            (areaSum_nonneg r.maskFinal env.roiPix env.pixelArea ha)
            (by norm_num)
    · rw [if_neg hroi]
      exact hs

lemma metricShape_foldl {h w : ℕ} {Geom : Type} (uu : List Geom → Geom)
    (sG : Geom → ℚ → Geom) (bnds : Geom → List (List ℚ)) :
    ∀ (acts : List (Action h w Geom)) (s : SessionState h w Geom),
      metricShape s.metricArea → (∀ a ∈ acts, goodAction a) →
      metricShape ((acts.foldl (step uu sG bnds) s)).metricArea := by
  intro acts
  induction acts with
  | nil =>
    intro s hs _
    exact hs
  | cons a acts ih =>
    intro s hs hg
    rw [List.foldl_cons]
    exact ih _ (metricShape_step uu sG bnds s a hs (hg a (List.mem_cons_self a acts)))
      (fun b hb => hg b (List.mem_cons_of_mem a hb))

/-- C10: over any session whose analyze actions use a non-negative
per-pixel-area raster, `metric_area` is always `None`, the `-1` error
code, or a non-negative number of hectares; a successful
`calculate_hectares` returns the non-negative pixel-area sum over
10000 and can never equal the `-1` sentinel; and the display maps the
three shapes to three distinct renderings. -/
theorem metric_area_invariant :
    (∀ (h w : ℕ) (Geom : Type) (uu : List Geom → Geom) (sG : Geom → ℚ → Geom)
      (bnds : Geom → List (List ℚ)) (acts : List (Action h w Geom)),
      (∀ a ∈ acts, goodAction a) →
      metricShape ((runActions uu sG bnds acts)).metricArea)
  ∧ (∀ (h w : ℕ) (m : Img h w) (roiPix : Pix h w → Bool) (pa : Pix h w → ℚ)
      (scale : ℕ), (∀ p, 0 ≤ pa p) →
      calculate_hectares true m roiPix pa scale =
        some (areaSum m roiPix pa / 10000) ∧
      0 ≤ areaSum m roiPix pa / 10000 ∧
      calculate_hectares true m roiPix pa scale ≠ some (-1))
  ∧ area_str none = .dash ∧ area_str (some (-1)) = .erroCalc
  ∧ (∀ a : ℚ, 0 ≤ a → area_str (some a) = .hectares a) := by
  refine ⟨?_, ?_, rfl, rfl, ?_⟩
  · intro h w Geom uu sG bnds acts hg
    unfold runActions
    exact metricShape_foldl uu sG bnds acts initState (Or.inl rfl) hg
  · intro h w m roiPix pa scale hpa
    have hnn : 0 ≤ areaSum m roiPix pa / 10000 :=
      div_nonneg (areaSum_nonneg m roiPix pa hpa) (by norm_num)
    refine ⟨calculate_hectares_ok m roiPix pa scale, hnn, ?_⟩
    rw [calculate_hectares_ok]
    intro hbad
    have := Option.some.inj hbad
    rw [this] at hnn
    linarith
  · intro a ha
    show (if a = -1 then AreaDisplay.erroCalc else AreaDisplay.hectares a) =
      AreaDisplay.hectares a
    rw [if_neg (show a ≠ -1 from fun hq => by rw [hq] at ha; linarith)]

/-- C10 witness: a concrete session (one failing load) satisfies the
invariant, and the concrete full mask yields a computed area distinct from
the `-1` sentinel, displayed as hectares. -/
theorem metric_area_invariant_witness :
    metricShape ((runActions Fx.uuN Fx.simpN Fx.bndsN
      [(Action.load Fx.fetchFail Fx.mun1 ["A"] "k" : Action 1 1 ℕ)]).metricArea) ∧
    calculate_hectares true Fx.oneImg Fx.allPix (fun _ => 100) 30 ≠
      some (-1) ∧
    area_str (some 5) = .hectares 5 :=
  ⟨metric_area_invariant.1 1 1 ℕ Fx.uuN Fx.simpN Fx.bndsN
      [(Action.load Fx.fetchFail Fx.mun1 ["A"] "k" : Action 1 1 ℕ)]
      (fun a ha => by
        cases ha with
        | head => exact trivial
        | tail _ hb => cases hb),
   (metric_area_invariant.2.1 1 1 Fx.oneImg Fx.allPix (fun _ => 100) 30
      (fun _ => by norm_num)).2.2,
   metric_area_invariant.2.2.2.2 5 (by norm_num)⟩

end Domo
